import Mathlib

/-!
Shallow embedding of the eye-tracked-input repository's signal-processing
core (src/vision/gaze_tracker.py), its keyboard actuator
(src/input/keyboard_controller.py), and the per-frame dispatch of the
main loop (src/main.py).  Python floats are modelled as rationals; Python
`None` as `Option.none`; per-frame wall-clock time (`time.time()`) is an
explicit rational parameter.
-/

/-- A raw landmark as delivered by the landmark-extraction subsystem:
a 2D point with normalized coordinates. -/
structure Landmark where
  x : ℚ
  y : ℚ
deriving DecidableEq, Repr

/-- A computed 2D point (possibly scaled to pixel space). -/
abbrev Point := ℚ × ℚ

/-- Python truthiness of an optional numeric scale argument:
`None` and `0` are falsy. -/
def truthy : Option ℚ → Bool
  | none => false
  | some v => v != 0

/-- GazeTracker._get_landmark_point: returns `none` when the index is out of
range; otherwise the point, scaled by (width, height) when both are truthy. -/
def get_landmark_point (landmarks : List Landmark) (idx : ℕ)
    (image_width image_height : Option ℚ) : Option Point :=
  if landmarks.length ≤ idx then none
  else
    let l := landmarks.getD idx ⟨0, 0⟩
    if truthy image_width && truthy image_height then
      some (l.x * image_width.getD 0, l.y * image_height.getD 0)
    else
      some (l.x, l.y)

/-- GazeTracker._get_points_from_indices: collects the points of all
in-range indices, skipping out-of-range ones; `none` when nothing was
collected. -/
def get_points_from_indices (landmarks : List Landmark) (indices : List ℕ)
    (image_width image_height : Option ℚ) : Option (List Point) :=
  let points := indices.filterMap
    (fun idx => get_landmark_point landmarks idx image_width image_height)
  if points = [] then none else some points

/-- Arithmetic mean of a list of points, coordinatewise
(numpy points.mean over axis 0). -/
def centroid (points : List Point) : Point :=
  ((points.map Prod.fst).sum / (points.length : ℚ),
   (points.map Prod.snd).sum / (points.length : ℚ))

/-- Maximum of a list of rationals (numpy .max over a nonempty array;
0 on the unreachable empty case). -/
def listMax : List ℚ → ℚ
  | [] => 0
  | x :: xs => xs.foldl max x

/-- Minimum of a list of rationals (numpy .min; 0 on the unreachable
empty case). -/
def listMin : List ℚ → ℚ
  | [] => 0
  | x :: xs => xs.foldl min x

/-- First point minimizing `f` (numpy argmin keeps the first occurrence;
(0,0) on the unreachable empty case). -/
def argminPoint (f : Point → ℚ) : List Point → Point
  | [] => (0, 0)
  | p :: ps => ps.foldl (fun best q => if f q < f best then q else best) p

/-- First point maximizing `f` (numpy argmax keeps the first occurrence). -/
def argmaxPoint (f : Point → ℚ) : List Point → Point
  | [] => (0, 0)
  | p :: ps => ps.foldl (fun best q => if f best < f q then q else best) p

/-- Axis-aligned extremes of one eye's landmark subset, as built by the
local get_bounds in GazeTracker.get_eye_boundaries. -/
structure EyeBounds where
  left : Point
  right : Point
  top : Point
  bottom : Point
deriving DecidableEq, Repr

/-- The get_bounds dict of GazeTracker.get_eye_boundaries: min-x paired
with the y of the argmin-x point, and so on. -/
def get_bounds (points : List Point) : EyeBounds :=
  { left := (listMin (points.map Prod.fst), (argminPoint Prod.fst points).2)
    right := (listMax (points.map Prod.fst), (argmaxPoint Prod.fst points).2)
    top := ((argminPoint Prod.snd points).1, listMin (points.map Prod.snd))
    bottom := ((argmaxPoint Prod.snd points).1, listMax (points.map Prod.snd)) }

/-- Gaze direction as returned by GazeTracker.get_gaze_direction
(the Python strings "LEFT", "RIGHT", "CENTER"); the spec's UNKNOWN is
`Option.none` of this type. -/
inductive Direction
  | LEFT
  | RIGHT
  | CENTER
deriving DecidableEq, Repr

/-- The mutable state of GazeTracker plus its configuration constants.
The four index lists are fixed at initialization (in the source they are
extracted from MediaPipe FACEMESH connection tables). -/
structure GazeTracker where
  blink_threshold : ℚ
  blink_cooldown : ℚ
  previous_eye_ratio : Option ℚ
  last_blink_time : ℚ
  baseline_ratios : List ℚ
  baseline_max_samples : ℕ
  baseline_avg : Option ℚ
  min_samples : ℕ
  gaze_threshold : ℚ
  left_eye_indices : List ℕ
  right_eye_indices : List ℕ
  left_iris_indices : List ℕ
  right_iris_indices : List ℕ
deriving DecidableEq, Repr

/-- GazeTracker.__init__ with the numeric constants of the source; the
landmark index subsets, produced externally from MediaPipe connection
tables by _extract_indices_from_connections, are taken as parameters. -/
def mkTracker (left_eye right_eye left_iris right_iris : List ℕ) : GazeTracker :=
  { blink_threshold := 9 / 50
    blink_cooldown := 3 / 20
    previous_eye_ratio := none
    last_blink_time := 0
    baseline_ratios := []
    baseline_max_samples := 30
    baseline_avg := none
    min_samples := 10
    gaze_threshold := 3 / 200
    left_eye_indices := left_eye
    right_eye_indices := right_eye
    left_iris_indices := left_iris
    right_iris_indices := right_iris }

/-- GazeTracker.get_iris_positions: centroid of each iris point subset, or
(none, none) when the landmark list is falsy or either subset yields no
points. -/
def get_iris_positions (st : GazeTracker) (landmarks : List Landmark)
    (image_width image_height : Option ℚ) : Option Point × Option Point :=
  if landmarks = [] then (none, none)
  else
    let left_points := get_points_from_indices landmarks st.left_iris_indices image_width image_height
    let right_points := get_points_from_indices landmarks st.right_iris_indices image_width image_height
    match left_points, right_points with
    | some lp, some rp => (some (centroid lp), some (centroid rp))
    | _, _ => (none, none)

/-- GazeTracker.get_eye_boundaries: bounding extremes of each eye point
subset, or (none, none) when the landmark list is falsy or either subset
yields no points. -/
def get_eye_boundaries (st : GazeTracker) (landmarks : List Landmark)
    (image_width image_height : Option ℚ) : Option EyeBounds × Option EyeBounds :=
  if landmarks = [] then (none, none)
  else
    let left_points := get_points_from_indices landmarks st.left_eye_indices image_width image_height
    let right_points := get_points_from_indices landmarks st.right_eye_indices image_width image_height
    match left_points, right_points with
    | some lp, some rp => (some (get_bounds lp), some (get_bounds rp))
    | _, _ => (none, none)

/-- GazeTracker.detect_blink: returns the emitted blink flag together with
the tracker state after the call; `current_time` stands for the
time.time() call in the source. -/
def detect_blink (st : GazeTracker) (landmarks : List Landmark)
    (current_time : ℚ) : Bool × GazeTracker :=
  if landmarks = [] then (false, st)
  else
    let left_points := get_points_from_indices landmarks st.left_eye_indices none none
    let right_points := get_points_from_indices landmarks st.right_eye_indices none none
    match left_points, right_points with
    | some lp, some rp =>
      if lp = [] ∨ rp = [] then (false, st)
      else
        let left_vertical := listMax (lp.map Prod.snd) - listMin (lp.map Prod.snd)
        let right_vertical := listMax (rp.map Prod.snd) - listMin (rp.map Prod.snd)
        let min_vertical := min left_vertical right_vertical
        let left_horizontal := listMax (lp.map Prod.fst) - listMin (lp.map Prod.fst)
        let right_horizontal := listMax (rp.map Prod.fst) - listMin (rp.map Prod.fst)
        let avg_horizontal := (left_horizontal + right_horizontal) / 2
        if avg_horizontal = 0 then (false, st)
        else
          let normalized_opening := min_vertical / avg_horizontal
          let is_blinking : Bool := decide (normalized_opening < st.blink_threshold)
          let was_open : Bool :=
            match st.previous_eye_ratio with
            | none => true
            | some r => decide (st.blink_threshold ≤ r)
          if is_blinking && was_open &&
              decide (st.blink_cooldown < current_time - st.last_blink_time) then
            (true, { st with last_blink_time := current_time,
                             previous_eye_ratio := some normalized_opening })
          else
            (false, { st with previous_eye_ratio := some normalized_opening })
    | _, _ => (false, st)

/-- GazeTracker.calculate_horizontal_ratio: iris position normalized to
[0,1] across the eye width, 0.5 on a degenerate (near-zero-width) eye,
none on missing inputs. -/
def calculate_horizontal_ratio (iris_pos : Option Point)
    (eye_bounds : Option EyeBounds) : Option ℚ :=
  match iris_pos, eye_bounds with
  | some iris, some bounds =>
    let eye_width := bounds.right.1 - bounds.left.1
    if |eye_width| < 1 / 1000000 then some (1 / 2)
    else some (max 0 (min 1 ((iris.1 - bounds.left.1) / eye_width)))
  | _, _ => none

/-- GazeTracker._update_baseline: push the newest ratio, evict the oldest
past capacity, recompute the average once min_samples is reached. -/
def update_baseline (st : GazeTracker) (avg_ratio : ℚ) : GazeTracker :=
  let ratios0 := st.baseline_ratios ++ [avg_ratio]
  let ratios := if ratios0.length > st.baseline_max_samples then ratios0.tail else ratios0
  let avg := if ratios.length ≥ st.min_samples
    then some (ratios.sum / (ratios.length : ℚ))
    else st.baseline_avg
  { st with baseline_ratios := ratios, baseline_avg := avg }

/-- GazeTracker.get_gaze_direction: per-frame direction decision together
with the tracker state after the call; `none` is the spec's UNKNOWN. -/
def get_gaze_direction (st : GazeTracker) (landmarks : List Landmark)
    (image_width image_height : Option ℚ) : Option Direction × GazeTracker :=
  let iris := get_iris_positions st landmarks image_width image_height
  let bounds := get_eye_boundaries st landmarks image_width image_height
  if iris.1 = none ∨ iris.2 = none ∨ bounds.1 = none ∨ bounds.2 = none then (none, st)
  else
    let left_ratio := calculate_horizontal_ratio iris.1 bounds.1
    let right_ratio := calculate_horizontal_ratio iris.2 bounds.2
    if left_ratio = none ∨ right_ratio = none then (none, st)
    else
      let avg_ratio := (left_ratio.getD 0 + right_ratio.getD 0) / 2
      let st1 := update_baseline st avg_ratio
      match st1.baseline_avg with
      | none => (some Direction.CENTER, st1)
      | some b =>
        let deviation := avg_ratio - b
        if |deviation| < st1.gaze_threshold then (some Direction.CENTER, st1)
        else if deviation < 0 then (some Direction.LEFT, st1)
        else (some Direction.RIGHT, st1)

/-- Runs detect_blink over a list of (landmark set, timestamp) frames,
recording each call's result and timestamp. -/
def run_detect_blink : GazeTracker → List (List Landmark × ℚ) → List (Bool × ℚ)
  | _, [] => []
  | st, (lm, t) :: rest =>
    let r := detect_blink st lm t
    (r.1, t) :: run_detect_blink r.2 rest

/-- The pynput keys the controller presses (Key.left, Key.right, Key.up). -/
inductive PKey
  | left
  | right
  | up
deriving DecidableEq, Repr

/-- A simulated key operation emitted to the operating system by
keyboard.press / keyboard.release. -/
inductive KeyEvent
  | press (k : PKey)
  | release (k : PKey)
deriving DecidableEq, Repr

/-- The mutable state of KeyboardController (src/input/keyboard_controller.py). -/
structure KeyboardController where
  jump_hold_duration : ℚ
  current_key : Option PKey
  last_direction : Option Direction
  last_blink_state : Bool
  jump_start_time : Option ℚ
  jump_key_pressed : Bool
deriving DecidableEq, Repr

/-- KeyboardController.__init__. -/
def mkKeyboardController (jump_hold_duration : ℚ) : KeyboardController :=
  { jump_hold_duration := jump_hold_duration
    current_key := none
    last_direction := none
    last_blink_state := false
    jump_start_time := none
    jump_key_pressed := false }

/-- KeyboardController.update: consumes a per-frame (direction, is_blink)
decision and returns the new state together with the key operations
emitted, in order; `current_time` stands for time.time(). -/
def KeyboardController.update (kc : KeyboardController)
    (direction : Option Direction) (is_blink : Bool) (current_time : ℚ) :
    KeyboardController × List KeyEvent :=
  let jump :=
    if is_blink && !kc.last_blink_state then
      ({ kc with jump_start_time := some current_time, jump_key_pressed := true },
       [KeyEvent.press PKey.up])
    else if kc.jump_key_pressed then
      if kc.jump_hold_duration ≤ current_time - kc.jump_start_time.getD 0 then
        ({ kc with jump_key_pressed := false, jump_start_time := none },
         [KeyEvent.release PKey.up])
      else (kc, [])
    else (kc, [])
  let kc2 := { jump.1 with last_blink_state := is_blink }
  let dir :=
    match direction with
    | some Direction.CENTER => ({ kc2 with last_direction := none }, some Direction.CENTER)
    | some Direction.LEFT => ({ kc2 with last_direction := some Direction.LEFT }, some Direction.LEFT)
    | some Direction.RIGHT => ({ kc2 with last_direction := some Direction.RIGHT }, some Direction.RIGHT)
    | none => (kc2, kc2.last_direction)
  let target_key : Option PKey :=
    match dir.2 with
    | some Direction.LEFT => some PKey.left
    | some Direction.RIGHT => some PKey.right
    | _ => none
  if target_key ≠ dir.1.current_key then
    ({ dir.1 with current_key := target_key },
     jump.2 ++
       ((match dir.1.current_key with
         | some k => [KeyEvent.release k]
         | none => []) ++
        (match target_key with
         | some k => [KeyEvent.press k]
         | none => [])))
  else (dir.1, jump.2)

/-- KeyboardController.release_all: releases the held direction key and
the held jump key and clears the latch state, returning the new state and
the key operations emitted. -/
def KeyboardController.release_all (kc : KeyboardController) :
    KeyboardController × List KeyEvent :=
  let s1 :=
    match kc.current_key with
    | some k => ({ kc with current_key := none }, [KeyEvent.release k])
    | none => (kc, [])
  let s2 :=
    if s1.1.jump_key_pressed then
      ({ s1.1 with jump_key_pressed := false, jump_start_time := none,
                   last_blink_state := false },
       [KeyEvent.release PKey.up])
    else (s1.1, [])
  ({ s2.1 with last_direction := none }, s1.2 ++ s2.2)

/-- One iteration of the main loop's actuation step (src/main.py, frame
branch with keyboard input enabled): when a face was detected the frame's
(direction, is_blink) decision is fed to KeyboardController.update;
when no face was detected release_all is invoked. -/
def main_frame (kc : KeyboardController)
    (face : Option (Option Direction × Bool)) (current_time : ℚ) :
    KeyboardController × List KeyEvent :=
  match face with
  | some d => kc.update d.1 d.2 current_time
  | none => kc.release_all

/-- Test fixture: a four-landmark frame whose two eye subsets ([0,1] and
[2,3]) each have horizontal extent 1 and vertical extent `v`, so the
normalized opening computed by detect_blink is exactly `v`. -/
def openingFrame (v : ℚ) : List Landmark :=
  [⟨0, 0⟩, ⟨1, v⟩, ⟨0, 0⟩, ⟨1, v⟩]

/-- Test fixture tracker with eye subsets [0,1] and [2,3] and iris
subsets [4] and [5]. -/
def testTracker : GazeTracker :=
  mkTracker [0, 1] [2, 3] [4] [5]

/-- Test fixture: a six-landmark frame whose eye subsets span x∈[0,1]
(so each eye's width is 1 after scaling by 1×1) and whose iris points sit
at x = r, so the averaged horizontal ratio of the frame is exactly `r`
(for r ∈ [0,1]). -/
def gazeFrame (r : ℚ) : List Landmark :=
  [⟨0, 0⟩, ⟨1, 1⟩, ⟨0, 0⟩, ⟨1, 1⟩, ⟨r, 0⟩, ⟨r, 0⟩]

/-- Feeds a sequence of avg_ratio samples through _update_baseline, one
call per frame, as get_gaze_direction does over successive frames. -/
def push_samples (st : GazeTracker) (xs : List ℚ) : GazeTracker :=
  xs.foldl update_baseline st

/-- Helper: release_all always ends with no held direction key, no held
jump key, and no remembered direction. -/
theorem release_all_clears (kc : KeyboardController) :
    kc.release_all.1.current_key = none ∧
    kc.release_all.1.jump_key_pressed = false ∧
    kc.release_all.1.last_direction = none := by
  rcases kc with ⟨d, ck, ld, lb, js, jp⟩
  cases ck <;> cases jp <;>
    simp [KeyboardController.release_all]

/-- C10: release_all is idempotent: after one call current_key is None,
jump_key_pressed is false and last_direction is None, and a second call
returns the same state and emits no key operations (so two calls emit the
same events as one). -/
theorem C10_release_all_idempotent (kc : KeyboardController) :
    kc.release_all.1.release_all = (kc.release_all.1, []) ∧
    kc.release_all.1.current_key = none ∧
    kc.release_all.1.jump_key_pressed = false ∧
    kc.release_all.1.last_direction = none := by
  rcases kc with ⟨d, ck, ld, lb, js, jp⟩
  cases ck <;> cases jp <;>
    simp [KeyboardController.release_all]

/-- C1 counterexample: a frame in which the core reports UNKNOWN
(direction = none) while a face is present does NOT end with all inputs
released: the controller keeps the previously held LEFT key pressed. -/
theorem C1_counterexample :
    (main_frame
        (main_frame (mkKeyboardController (3/5)) (some (some Direction.LEFT, false)) 0).1
        (some (none, false)) 1).1.current_key = some PKey.left :=
  of_decide_eq_true (by with_unfolding_all rfl)

/-- C1 amended: the "release everything" operation is invoked whenever no
face is detected (not on every UNKNOWN direction report), and such a frame
ends with every held input released: no direction key, no jump key, no
remembered direction. -/
theorem C1_no_face_releases_all (kc : KeyboardController) (t : ℚ) :
    main_frame kc none t = kc.release_all ∧
    (main_frame kc none t).1.current_key = none ∧
    (main_frame kc none t).1.jump_key_pressed = false ∧
    (main_frame kc none t).1.last_direction = none :=
  ⟨rfl, (release_all_clears kc).1, (release_all_clears kc).2.1,
    (release_all_clears kc).2.2⟩

/-- Helper: a single landmark lookup fails exactly on out-of-range
indices. -/
theorem get_landmark_point_eq_none_iff (lm : List Landmark) (i : ℕ)
    (w h : Option ℚ) :
    get_landmark_point lm i w h = none ↔ lm.length ≤ i := by
  simp only [get_landmark_point]
  split
  next hle => simpa using hle
  next hgt =>
    constructor
    · intro hcontra
      split at hcontra <;> simp at hcontra
    · intro hle
      exact absurd hle hgt

/-- C2 counterexample: an index subset containing an out-of-range index
(5, against a single-landmark set) does not make the accessor return
undefined; the out-of-range index is skipped and the remaining point is
returned. -/
theorem C2_counterexample :
    ([(⟨0, 0⟩ : Landmark)].length ≤ 5) ∧
    get_points_from_indices [⟨0, 0⟩] [0, 5] none none = some [(0, 0)] :=
  ⟨by simp, of_decide_eq_true (by with_unfolding_all rfl)⟩

/-- C2 amended: the point accessor returns undefined exactly when the
index subset is empty or every index in it is out of range; out-of-range
indices are merely skipped and any in-range points are returned (and the
operation is total, so it never throws). -/
theorem C2_points_none_iff (lm : List Landmark) (idxs : List ℕ)
    (w h : Option ℚ) :
    get_points_from_indices lm idxs w h = none ↔
      ∀ i ∈ idxs, lm.length ≤ i := by
  simp only [get_points_from_indices]
  split
  next heq =>
    simp only [true_iff]
    rw [List.filterMap_eq_nil_iff] at heq
    intro i hi
    exact (get_landmark_point_eq_none_iff lm i w h).mp (heq i hi)
  next heq =>
    constructor
    · intro hcontra
      simp at hcontra
    · intro hall
      exact absurd (List.filterMap_eq_nil_iff.mpr
        (fun i hi => (get_landmark_point_eq_none_iff lm i w h).mpr (hall i hi))) heq

/-- C8: the horizontal ratio of any concrete iris/bounds pair lies in
[0,1], and any eye whose width is below the 1e-6 epsilon (in particular
zero width) yields exactly 0.5. -/
theorem C8_horizontal_ratio_clamped (iris : Point) (bounds : EyeBounds) :
    (∃ r, calculate_horizontal_ratio (some iris) (some bounds) = some r ∧
      0 ≤ r ∧ r ≤ 1) ∧
    (|bounds.right.1 - bounds.left.1| < 1 / 1000000 →
      calculate_horizontal_ratio (some iris) (some bounds) = some (1 / 2)) := by
  simp only [calculate_horizontal_ratio]
  split
  next hdeg =>
    exact ⟨⟨1 / 2, rfl, by norm_num, by norm_num⟩, fun _ => rfl⟩
  next hdeg =>
    refine ⟨⟨_, rfl, le_max_left 0 _, ?_⟩, fun hcontra => absurd hcontra hdeg⟩
    exact max_le (by norm_num) (min_le_left 1 _)

/-- C8 witness at a degenerate zero-width eye. -/
theorem C8_witness :
    calculate_horizontal_ratio (some ((0 : ℚ), 0))
      (some ⟨(0, 0), (0, 0), (0, 0), (0, 0)⟩) = some (1 / 2) :=
  (C8_horizontal_ratio_clamped ((0 : ℚ), 0)
    ⟨(0, 0), (0, 0), (0, 0), (0, 0)⟩).2 (by norm_num)

/-- C6: whenever any required geometry (either iris centroid, either eye
bounds, or either horizontal ratio) is unavailable, get_gaze_direction
returns UNKNOWN (none) and leaves the tracker state — in particular the
baseline FIFO and average — unchanged. -/
theorem C6_missing_data_atomic (st : GazeTracker) (lm : List Landmark)
    (w h : Option ℚ)
    (hmiss :
      (get_iris_positions st lm w h).1 = none ∨
      (get_iris_positions st lm w h).2 = none ∨
      (get_eye_boundaries st lm w h).1 = none ∨
      (get_eye_boundaries st lm w h).2 = none ∨
      calculate_horizontal_ratio (get_iris_positions st lm w h).1
        (get_eye_boundaries st lm w h).1 = none ∨
      calculate_horizontal_ratio (get_iris_positions st lm w h).2
        (get_eye_boundaries st lm w h).2 = none) :
    get_gaze_direction st lm w h = (none, st) := by
  unfold get_gaze_direction
  rcases hmiss with h1 | h2 | h3 | h4 | h5 | h6
  · rw [if_pos (Or.inl h1)]
  · rw [if_pos (Or.inr (Or.inl h2))]
  · rw [if_pos (Or.inr (Or.inr (Or.inl h3)))]
  · rw [if_pos (Or.inr (Or.inr (Or.inr h4)))]
  · by_cases hgeo :
      (get_iris_positions st lm w h).1 = none ∨
      (get_iris_positions st lm w h).2 = none ∨
      (get_eye_boundaries st lm w h).1 = none ∨
      (get_eye_boundaries st lm w h).2 = none
    · rw [if_pos hgeo]
    · rw [if_neg hgeo, if_pos (Or.inl h5)]
  · by_cases hgeo :
      (get_iris_positions st lm w h).1 = none ∨
      (get_iris_positions st lm w h).2 = none ∨
      (get_eye_boundaries st lm w h).1 = none ∨
      (get_eye_boundaries st lm w h).2 = none
    · rw [if_pos hgeo]
    · rw [if_neg hgeo, if_pos (Or.inr h6)]

/-- C6 witness: an empty landmark set (no face) leaves the tracker
untouched and reports UNKNOWN. -/
theorem C6_witness :
    get_gaze_direction testTracker [] (some 640) (some 480) =
      (none, testTracker) :=
  C6_missing_data_atomic testTracker [] (some 640) (some 480)
    (Or.inl (of_decide_eq_true (by with_unfolding_all rfl)))

/-- C3: from a fresh detector, the opening sequence
[0.3, 0.3, 0.1, 0.1, 0.1, 0.3] (threshold 0.18) emits exactly one blink,
on the third frame; frames 4 and 5 stay false although the opening is
still below threshold. -/
theorem C3_blink_edge_triggered :
    (run_detect_blink testTracker
      [(openingFrame (3/10), 1), (openingFrame (3/10), 2), (openingFrame (1/10), 3),
       (openingFrame (1/10), 4), (openingFrame (1/10), 5),
       (openingFrame (3/10), 6)]).map Prod.fst
    = [false, false, true, false, false, false] :=
  of_decide_eq_true (by with_unfolding_all rfl)

/-- C9: on a degenerate frame (average eye width zero) detect_blink
returns false and leaves the whole state — previous_eye_ratio and
last_blink_time included — unchanged; on a non-degenerate frame it always
stores the current normalized opening into previous_eye_ratio, blink or
no blink. -/
theorem C9_frame_effect (st : GazeTracker) (lm : List Landmark) (t : ℚ)
    (lp rp : List Point) (ah : ℚ)
    (hlm : ¬lm = [])
    (hl : get_points_from_indices lm st.left_eye_indices none none = some lp)
    (hr : get_points_from_indices lm st.right_eye_indices none none = some rp)
    (hlp : ¬lp = []) (hrp : ¬rp = [])
    (hah : ah = ((listMax (lp.map Prod.fst) - listMin (lp.map Prod.fst)) +
                 (listMax (rp.map Prod.fst) - listMin (rp.map Prod.fst))) / 2) :
    (ah = 0 → detect_blink st lm t = (false, st)) ∧
    (ah ≠ 0 → (detect_blink st lm t).2.previous_eye_ratio =
        some ((min (listMax (lp.map Prod.snd) - listMin (lp.map Prod.snd))
                   (listMax (rp.map Prod.snd) - listMin (rp.map Prod.snd))) / ah)) := by
  simp only [detect_blink, if_neg hlm, hl, hr]
  rw [if_neg (by simp [hlp, hrp])]
  rw [← hah]
  constructor
  · intro h0
    rw [if_pos h0]
  · intro hne
    rw [if_neg hne]
    split <;> simp

/-- C9 witness at a degenerate frame whose eye subsets have zero extent. -/
theorem C9_witness :
    detect_blink testTracker [⟨0, 0⟩, ⟨0, 0⟩, ⟨0, 0⟩, ⟨0, 0⟩] 5 =
      (false, testTracker) :=
  (C9_frame_effect testTracker [⟨0, 0⟩, ⟨0, 0⟩, ⟨0, 0⟩, ⟨0, 0⟩] 5
    [(0, 0), (0, 0)] [(0, 0), (0, 0)] 0
    (by simp)
    (of_decide_eq_true (by with_unfolding_all rfl))
    (of_decide_eq_true (by with_unfolding_all rfl))
    (by simp) (by simp)
    (of_decide_eq_true (by with_unfolding_all rfl))).1 rfl

/-- Helper: tail of a nonempty list with one element appended. -/
theorem tail_append_singleton {α : Type} (a : α) (l : List α) (x : α) :
    ((a :: l) ++ [x]).tail = l ++ [x] := rfl

/-- Helper: the FIFO contents after pushing a whole sample list are the
suffix of (old contents ++ samples) that fits in the 30-slot window. -/
theorem push_samples_ratios (xs : List ℚ) : ∀ st : GazeTracker,
    st.baseline_max_samples = 30 → st.baseline_ratios.length ≤ 30 →
    (push_samples st xs).baseline_ratios =
      (st.baseline_ratios ++ xs).drop (st.baseline_ratios.length + xs.length - 30) := by
  induction xs with
  | nil =>
    intro st hmax hlen
    simp only [List.length_nil, Nat.add_zero, List.append_nil, push_samples, List.foldl_nil]
    rw [Nat.sub_eq_zero_of_le hlen, List.drop_zero]
  | cons x xs ih =>
    intro st hmax hlen
    have hstep : push_samples st (x :: xs) = push_samples (update_baseline st x) xs := rfl
    have hmax2 : (update_baseline st x).baseline_max_samples = 30 := hmax
    have hup : (update_baseline st x).baseline_ratios =
        if 30 < st.baseline_ratios.length + 1 then (st.baseline_ratios ++ [x]).tail
        else st.baseline_ratios ++ [x] := by
      simp [update_baseline, hmax]
    by_cases hfull : st.baseline_ratios.length = 30
    · obtain ⟨a, l', hal⟩ : ∃ a l', st.baseline_ratios = a :: l' := by
        cases hsr : st.baseline_ratios with
        | nil => rw [hsr] at hfull; simp at hfull
        | cons a l' => exact ⟨a, l', rfl⟩
      have hl' : l'.length = 29 := by
        rw [hal] at hfull; simpa using hfull
      have hup2 : (update_baseline st x).baseline_ratios = l' ++ [x] := by
        rw [hup, if_pos (by omega), hal, tail_append_singleton]
      have hlen2 : (update_baseline st x).baseline_ratios.length ≤ 30 := by
        rw [hup2]; simp [hl']
      have hrec := ih (update_baseline st x) hmax2 hlen2
      rw [hstep, hrec, hup2, hfull, hal]
      rw [show l' ++ [x] ++ xs = l' ++ x :: xs by simp]
      rw [show (a :: l') ++ x :: xs = a :: (l' ++ x :: xs) from rfl]
      have h1 : (l' ++ [x]).length + xs.length - 30 = xs.length := by
        simp only [List.length_append, List.length_cons, List.length_nil, hl']
        omega
      have h2 : 30 + (x :: xs).length - 30 = xs.length + 1 := by
        simp only [List.length_cons]
        omega
      rw [h1, h2, List.drop_succ_cons]
    · have hlt : st.baseline_ratios.length < 30 := by omega
      have hup2 : (update_baseline st x).baseline_ratios = st.baseline_ratios ++ [x] := by
        rw [hup, if_neg (by omega)]
      have hlen2 : (update_baseline st x).baseline_ratios.length ≤ 30 := by
        rw [hup2]; simp; omega
      have hrec := ih (update_baseline st x) hmax2 hlen2
      rw [hstep, hrec, hup2]
      rw [show st.baseline_ratios ++ [x] ++ xs = st.baseline_ratios ++ x :: xs by simp]
      congr 1
      simp
      omega

/-- Helper: as long as fewer than min_samples samples have ever been
pushed, the baseline average stays undefined. -/
theorem push_samples_avg_none (xs : List ℚ) : ∀ st : GazeTracker,
    st.baseline_max_samples = 30 → st.min_samples = 10 →
    st.baseline_avg = none →
    st.baseline_ratios.length + xs.length < 10 →
    (push_samples st xs).baseline_avg = none := by
  induction xs with
  | nil =>
    intro st _ _ havg _
    simpa [push_samples] using havg
  | cons x xs ih =>
    intro st hmax hmin havg hlt
    have hstep : push_samples st (x :: xs) = push_samples (update_baseline st x) xs := rfl
    have hlt' : st.baseline_ratios.length + 1 < 10 := by
      simp only [List.length_cons] at hlt
      omega
    have hc1 : ¬ 30 < (st.baseline_ratios ++ [x]).length := by
      simp only [List.length_append, List.length_cons, List.length_nil]
      omega
    have hc2 : ¬ 10 ≤ (st.baseline_ratios ++ [x]).length := by
      simp only [List.length_append, List.length_cons, List.length_nil]
      omega
    have hup : (update_baseline st x).baseline_ratios = st.baseline_ratios ++ [x] := by
      simp only [update_baseline, hmax]
      rw [if_neg hc1]
    have havg2 : (update_baseline st x).baseline_avg = none := by
      simp only [update_baseline, hmax, hmin]
      rw [if_neg hc1, if_neg hc2]
      exact havg
    rw [hstep]
    refine ih (update_baseline st x) hmax hmin havg2 ?_
    rw [hup]
    simp only [List.length_append, List.length_cons, List.length_nil]
    simp only [List.length_cons] at hlt
    omega

/-- C7: the baseline FIFO never grows past 30 after any sequence of
updates starting within capacity; from a fresh tracker the average stays
undefined while fewer than 10 samples were pushed; and pushing 35 samples
leaves exactly the 30 most recent ones, in order. -/
theorem C7_baseline_invariant (st : GazeTracker) (xs ys zs : List ℚ)
    (el er il ir : List ℕ)
    (hmax : st.baseline_max_samples = 30)
    (hlen : st.baseline_ratios.length ≤ 30)
    (hys : ys.length < 10) (hzs : zs.length = 35) :
    (push_samples st xs).baseline_ratios.length ≤ 30 ∧
    (push_samples (mkTracker el er il ir) ys).baseline_avg = none ∧
    (push_samples (mkTracker el er il ir) zs).baseline_ratios = zs.drop 5 := by
  refine ⟨?_, ?_, ?_⟩
  · rw [push_samples_ratios xs st hmax hlen]
    simp
    omega
  · refine push_samples_avg_none ys (mkTracker el er il ir) rfl rfl rfl ?_
    simpa [mkTracker] using hys
  · rw [push_samples_ratios zs (mkTracker el er il ir) rfl (by simp [mkTracker])]
    simp [mkTracker, hzs]

/-- C7 witness on concrete sample lists (35 samples 0..34 for the
eviction part). -/
theorem C7_witness :
    (push_samples (mkTracker [] [] [] []) [0]).baseline_ratios.length ≤ 30 ∧
    (push_samples (mkTracker [] [] [] []) [0]).baseline_avg = none ∧
    (push_samples (mkTracker [] [] [] [])
        (List.replicate 35 (0 : ℚ))).baseline_ratios =
      (List.replicate 35 (0 : ℚ)).drop 5 :=
  C7_baseline_invariant (mkTracker [] [] [] []) [0] [0]
    (List.replicate 35 (0 : ℚ)) [] [] [] []
    rfl (by simp [mkTracker]) (by norm_num) (by simp)

/-- Helper: every detect_blink call either leaves the state untouched,
or only refreshes previous_eye_ratio, or emits and stamps
last_blink_time with the call time — and emission requires the cooldown
to have elapsed. -/
theorem detect_blink_cases (st : GazeTracker) (lm : List Landmark) (t : ℚ) :
    detect_blink st lm t = (false, st) ∨
    (∃ v, detect_blink st lm t = (false, { st with previous_eye_ratio := some v })) ∨
    (∃ v, detect_blink st lm t =
        (true, { st with last_blink_time := t, previous_eye_ratio := some v }) ∧
      st.blink_cooldown < t - st.last_blink_time) := by
  by_cases hlm : lm = []
  · exact Or.inl (by simp [detect_blink, hlm])
  · cases hA : get_points_from_indices lm st.left_eye_indices none none with
    | none => exact Or.inl (by simp [detect_blink, hlm, hA])
    | some lp =>
      cases hB : get_points_from_indices lm st.right_eye_indices none none with
      | none => exact Or.inl (by simp [detect_blink, hlm, hA, hB])
      | some rp =>
        simp only [detect_blink, if_neg hlm, hA, hB]
        by_cases hemp : lp = [] ∨ rp = []
        · exact Or.inl (by rw [if_pos hemp])
        · rw [if_neg hemp]
          by_cases havg :
              (listMax (lp.map Prod.fst) - listMin (lp.map Prod.fst) +
                (listMax (rp.map Prod.fst) - listMin (rp.map Prod.fst))) / 2 = 0
          · exact Or.inl (by rw [if_pos havg])
          · rw [if_neg havg]
            split
            next hcond =>
              refine Or.inr (Or.inr ⟨_, rfl, ?_⟩)
              simp only [Bool.and_eq_true, decide_eq_true_eq] at hcond
              exact hcond.2
            next hcond => exact Or.inr (Or.inl ⟨_, rfl⟩)

/-- Helper: detect_blink never changes the configured cooldown. -/
theorem detect_blink_cooldown (st : GazeTracker) (lm : List Landmark) (t : ℚ) :
    (detect_blink st lm t).2.blink_cooldown = st.blink_cooldown := by
  rcases detect_blink_cases st lm t with hc | ⟨v, hc⟩ | ⟨v, hc, _⟩ <;> rw [hc]

/-- Helper: with a nonnegative cooldown, last_blink_time never moves
backwards. -/
theorem detect_blink_last_le (st : GazeTracker) (lm : List Landmark) (t : ℚ)
    (h : 0 ≤ st.blink_cooldown) :
    st.last_blink_time ≤ (detect_blink st lm t).2.last_blink_time := by
  rcases detect_blink_cases st lm t with hc | ⟨v, hc⟩ | ⟨v, hc, hbound⟩
  · rw [hc]
  · rw [hc]
  · rw [hc]
    simp only []
    linarith

/-- Helper: an emitting call stamps last_blink_time with the call time,
after more than a full cooldown since the previous stamp. -/
theorem detect_blink_true (st : GazeTracker) (lm : List Landmark) (t : ℚ)
    (h : (detect_blink st lm t).1 = true) :
    (detect_blink st lm t).2.last_blink_time = t ∧
    st.blink_cooldown < t - st.last_blink_time := by
  rcases detect_blink_cases st lm t with hc | ⟨v, hc⟩ | ⟨v, hc, hbound⟩
  · rw [hc] at h; simp at h
  · rw [hc] at h; simp at h
  · rw [hc]; exact ⟨rfl, hbound⟩

/-- Helper: any emission in a run happens strictly more than one cooldown
after the last_blink_time held at the start of the run. -/
theorem run_emit_after (frames : List (List Landmark × ℚ)) :
    ∀ (st : GazeTracker) (i : ℕ) (t : ℚ),
    st.blink_cooldown = 3/20 →
    (run_detect_blink st frames)[i]? = some (true, t) →
    st.last_blink_time + 3/20 < t := by
  induction frames with
  | nil =>
    intro st i t _ hget
    simp [run_detect_blink] at hget
  | cons f rest ih =>
    intro st i t hcool hget
    obtain ⟨lm, t0⟩ := f
    rw [show run_detect_blink st ((lm, t0) :: rest) =
        ((detect_blink st lm t0).1, t0) ::
          run_detect_blink (detect_blink st lm t0).2 rest from rfl] at hget
    cases i with
    | zero =>
      simp only [List.getElem?_cons_zero, Option.some.injEq, Prod.mk.injEq] at hget
      obtain ⟨hb, ht⟩ := hget
      have := (detect_blink_true st lm t0 hb).2
      rw [hcool] at this
      linarith [this, ht.ge, ht.le]
    | succ i' =>
      simp only [List.getElem?_cons_succ] at hget
      have hcool2 : (detect_blink st lm t0).2.blink_cooldown = 3/20 := by
        rw [detect_blink_cooldown, hcool]
      have hle : st.last_blink_time ≤ (detect_blink st lm t0).2.last_blink_time :=
        detect_blink_last_le st lm t0 (by rw [hcool]; norm_num)
      have := ih (detect_blink st lm t0).2 i' t hcool2 hget
      linarith

/-- C5: in any sequence of detect_blink calls starting from a tracker
with the 0.15 s cooldown, any two calls that both return true are
separated by strictly more than the cooldown interval — in particular
never by less than 0.15 s. -/
theorem C5_blink_cooldown (st : GazeTracker)
    (frames : List (List Landmark × ℚ)) (i j : ℕ) (ti tj : ℚ)
    (hcool : st.blink_cooldown = 3/20) (hij : i < j)
    (hi : (run_detect_blink st frames)[i]? = some (true, ti))
    (hj : (run_detect_blink st frames)[j]? = some (true, tj)) :
    3/20 < tj - ti := by
  induction frames generalizing st i j with
  | nil => simp [run_detect_blink] at hi
  | cons f rest ih =>
    obtain ⟨lm, t0⟩ := f
    rw [show run_detect_blink st ((lm, t0) :: rest) =
        ((detect_blink st lm t0).1, t0) ::
          run_detect_blink (detect_blink st lm t0).2 rest from rfl] at hi hj
    have hcool2 : (detect_blink st lm t0).2.blink_cooldown = 3/20 := by
      rw [detect_blink_cooldown, hcool]
    cases i with
    | zero =>
      cases j with
      | zero => omega
      | succ j' =>
        simp only [List.getElem?_cons_zero, Option.some.injEq, Prod.mk.injEq] at hi
        obtain ⟨hb, ht⟩ := hi
        simp only [List.getElem?_cons_succ] at hj
        have hstamp := (detect_blink_true st lm t0 hb).1
        have hafter := run_emit_after rest (detect_blink st lm t0).2 j' tj hcool2 hj
        rw [hstamp] at hafter
        have : ti = t0 := ht.symm
        linarith
    | succ i' =>
      cases j with
      | zero => omega
      | succ j' =>
        simp only [List.getElem?_cons_succ] at hi hj
        exact ih (detect_blink st lm t0).2 i' j' hcool2 (by omega) hi hj

/-- C5 witness: a concrete run with two emissions, at times 1 and 3. -/
theorem C5_witness :
    (run_detect_blink testTracker
      [(openingFrame (1/10), 1), (openingFrame (3/10), 2),
       (openingFrame (1/10), 3)])[0]? = some (true, 1) ∧
    (run_detect_blink testTracker
      [(openingFrame (1/10), 1), (openingFrame (3/10), 2),
       (openingFrame (1/10), 3)])[2]? = some (true, 3) ∧
    (3 : ℚ)/20 < 3 - 1 :=
  ⟨of_decide_eq_true (by with_unfolding_all rfl),
   of_decide_eq_true (by with_unfolding_all rfl),
   C5_blink_cooldown testTracker
     [(openingFrame (1/10), 1), (openingFrame (3/10), 2),
      (openingFrame (1/10), 3)] 0 2 1 3 rfl (by omega)
     (of_decide_eq_true (by with_unfolding_all rfl))
     (of_decide_eq_true (by with_unfolding_all rfl))⟩

/-- Helper: evaluation of get_gaze_direction on the gazeFrame fixture
against a fully established all-b baseline window: the frame's ratio r is
pushed into the window first, and the decision compares r with the
post-push average (29 b + r)/30. -/
theorem gaze_eval (b r : ℚ) (h0 : 0 ≤ r) (h1 : r ≤ 1) :
    (get_gaze_direction
      { testTracker with baseline_ratios := List.replicate 30 b, baseline_avg := some b }
      (gazeFrame r) (some 1) (some 1)).1 =
    (if |r - (29 * b + r) / 30| < 3/200 then some Direction.CENTER
     else if r - (29 * b + r) / 30 < 0 then some Direction.LEFT
     else some Direction.RIGHT) := by
  have hclamp : max (0:ℚ) (min 1 r) = r := by
    rw [min_eq_right h1, max_eq_right h0]
  have htail : ∀ x : ℚ, (List.replicate 30 b ++ [x]).tail = List.replicate 29 b ++ [x] := by
    intro x
    rw [show List.replicate 30 b = b :: List.replicate 29 b from rfl]
    rfl
  have hsum : ∀ x : ℚ, (List.replicate 29 b ++ [x]).sum = 29 * b + x := by
    intro x
    simp [List.sum_append]
    ring
  have heps : ¬ ((1 : ℚ) < 1000000⁻¹) := by norm_num
  simp [get_gaze_direction, get_iris_positions, get_eye_boundaries,
    get_points_from_indices, get_landmark_point, gazeFrame, truthy, centroid, get_bounds,
    listMax, listMin, argminPoint, argmaxPoint, calculate_horizontal_ratio, update_baseline,
    testTracker, mkTracker, htail, hsum, hclamp, heps]
  ring_nf
  split_ifs <;> rfl

/-- C4: with the baseline established by a full 30-sample window all equal
to b, a frame whose avg_ratio is b + 0.02 classifies RIGHT, b - 0.02
classifies LEFT and b + 0.01 classifies CENTER (threshold 0.015; the
current sample is pushed into the window before the deviation is
computed). -/
theorem C4_deviation_classification (b : ℚ) (hlo : 1/50 ≤ b) (hhi : b ≤ 49/50) :
    (get_gaze_direction
      { testTracker with baseline_ratios := List.replicate 30 b, baseline_avg := some b }
      (gazeFrame (b + 1/50)) (some 1) (some 1)).1 = some Direction.RIGHT ∧
    (get_gaze_direction
      { testTracker with baseline_ratios := List.replicate 30 b, baseline_avg := some b }
      (gazeFrame (b - 1/50)) (some 1) (some 1)).1 = some Direction.LEFT ∧
    (get_gaze_direction
      { testTracker with baseline_ratios := List.replicate 30 b, baseline_avg := some b }
      (gazeFrame (b + 1/100)) (some 1) (some 1)).1 = some Direction.CENTER := by
  refine ⟨?_, ?_, ?_⟩
  · have hA : ¬ |(b + 1/50) - (29 * b + (b + 1/50)) / 30| < 3/200 := by
      rw [not_lt, le_abs]
      left
      linarith
    have hB : ¬ ((b + 1/50) - (29 * b + (b + 1/50)) / 30 < 0) := by
      rw [not_lt]
      linarith
    rw [gaze_eval b (b + 1/50) (by linarith) (by linarith), if_neg hA, if_neg hB]
  · have hA : ¬ |(b - 1/50) - (29 * b + (b - 1/50)) / 30| < 3/200 := by
      rw [not_lt, le_abs]
      right
      linarith
    rw [gaze_eval b (b - 1/50) (by linarith) (by linarith), if_neg hA,
      if_pos (by linarith : (b - 1/50) - (29 * b + (b - 1/50)) / 30 < 0)]
  · have hA : |(b + 1/100) - (29 * b + (b + 1/100)) / 30| < 3/200 := by
      rw [abs_lt]
      constructor <;> linarith
    rw [gaze_eval b (b + 1/100) (by linarith) (by linarith), if_pos hA]

/-- C4 witness at the concrete baseline value b = 1/2. -/
theorem C4_witness :
    (get_gaze_direction
      { testTracker with baseline_ratios := List.replicate 30 (1/2), baseline_avg := some (1/2) }
      (gazeFrame (1/2 + 1/50)) (some 1) (some 1)).1 = some Direction.RIGHT ∧
    (get_gaze_direction
      { testTracker with baseline_ratios := List.replicate 30 (1/2), baseline_avg := some (1/2) }
      (gazeFrame (1/2 - 1/50)) (some 1) (some 1)).1 = some Direction.LEFT ∧
    (get_gaze_direction
      { testTracker with baseline_ratios := List.replicate 30 (1/2), baseline_avg := some (1/2) }
      (gazeFrame (1/2 + 1/100)) (some 1) (some 1)).1 = some Direction.CENTER :=
  C4_deviation_classification (1/2) (by norm_num) (by norm_num)
